import Mathlib

/-!
Shallow embedding of `bot/cogs/error_handler.py`: the `ErrorHandler.on_command_error`
coroutine of the python-discord-bot repository.

The handler inspects the exception raised by a command invocation and produces
at most one user-facing chat message, at most one log line, at most one
recursive command invocation and at most one re-raised exception.  We model the
handler as a pure function from the invocation context and the error value to
an `Outcome` record collecting exactly those observable effects, in order.

External collaborators that live outside this module are modelled as
parameters:
* the verification channel id (`bot.constants.Channels.verification`) is passed
  as the `verification : Nat` argument;
* the result of the recursive `ctx.invoke(tags_get_command, ...)` call (which
  runs framework code) is passed as the `tagsInvoke : InvokeResult` argument:
  it either returns normally, raises a `ResponseCodeError`, or raises some
  other exception.
-/

namespace ErrorHandler

/-- Log levels used by the handler (`log.debug` / `log.warning`). -/
inductive LogLevel
  | debug
  | warning
  deriving DecidableEq, Repr

/-- The response object carried by a `ResponseCodeError` (`bot.api`).  It has
distinct `status` and `code` attributes, and a decoded json `body` (the value
returned by `await response.json()`). -/
structure Response where
  status : Nat
  code : Nat
  body : String
  deriving DecidableEq, Repr

/-- The `original` exception wrapped inside a `CommandInvokeError`: either a
`ResponseCodeError` from `bot.api`, or any other exception (kept as its text). -/
inductive OriginalError
  | responseCodeError (response : Response)
  | otherOriginal (text : String)
  deriving DecidableEq, Repr

/-- The dynamic class of the error handed to `on_command_error`, with the
payloads the handler reads.  `text` stands for `str(e)`; the two permission
errors carry `missing_perms`. -/
inductive CommandError
  | commandNotFound
  | badArgument (text : String)
  | userInputError (text : String)
  | noPrivateMessage
  | botMissingPermissions (missingPerms : List String)
  | missingPermissions (missingPerms : List String)
  | checkFailure (text : String)
  | commandOnCooldown (text : String)
  | disabledCommand (text : String)
  | commandInvokeError (original : OriginalError) (text : String)
  | otherError (text : String)
  deriving DecidableEq, Repr

/-- A resolved command object: its name, its parent command name (when it is a
subcommand) and whether it carries a local `on_error` attribute. -/
structure Command where
  name : String
  parent : Option String
  hasOnError : Bool
  deriving DecidableEq, Repr

/-- The invocation context (`discord.ext.commands.Context`): originating
channel id, whether `invoked_from_error_handler` is already set on it, the raw
`invoked_with` text, the message author, and the resolved command (absent for a
command-not-found error). -/
structure Context where
  channelId : Nat
  invokedFromErrorHandler : Bool
  invokedWith : String
  author : String
  command : Option Command
  deriving DecidableEq, Repr

/-- `isinstance(e, CommandNotFound)`. -/
def isCommandNotFound : CommandError → Bool
  | .commandNotFound => true
  | _ => false

/-- `isinstance(e, BadArgument)`. -/
def isBadArgument : CommandError → Bool
  | .badArgument _ => true
  | _ => false

/-- `isinstance(e, UserInputError)`: in the discord.py class hierarchy
`BadArgument` is a subclass of `UserInputError`, so both classes satisfy it. -/
def isUserInputError : CommandError → Bool
  | .badArgument _ => true
  | .userInputError _ => true
  | _ => false

/-- `isinstance(e, NoPrivateMessage)`. -/
def isNoPrivateMessage : CommandError → Bool
  | .noPrivateMessage => true
  | _ => false

/-- `isinstance(e, BotMissingPermissions)`. -/
def isBotMissingPermissions : CommandError → Bool
  | .botMissingPermissions _ => true
  | _ => false

/-- `isinstance(e, MissingPermissions)`. -/
def isMissingPermissions : CommandError → Bool
  | .missingPermissions _ => true
  | _ => false

/-- `isinstance(e, CheckFailure)`: in discord.py, `NoPrivateMessage`,
`MissingPermissions` and `BotMissingPermissions` are subclasses of
`CheckFailure`. -/
def isCheckFailure : CommandError → Bool
  | .checkFailure _ => true
  | .noPrivateMessage => true
  | .botMissingPermissions _ => true
  | .missingPermissions _ => true
  | _ => false

/-- `isinstance(e, CommandOnCooldown)`. -/
def isCommandOnCooldown : CommandError → Bool
  | .commandOnCooldown _ => true
  | _ => false

/-- `isinstance(e, DisabledCommand)`. -/
def isDisabledCommand : CommandError → Bool
  | .disabledCommand _ => true
  | _ => false

/-- `isinstance(e, CommandInvokeError)`. -/
def isCommandInvokeError : CommandError → Bool
  | .commandInvokeError _ _ => true
  | _ => false

/-- `str(e)` for the error classes whose text the handler interpolates. -/
def errText : CommandError → String
  | .badArgument t => t
  | .userInputError t => t
  | .checkFailure t => t
  | .commandOnCooldown t => t
  | .disabledCommand t => t
  | .commandInvokeError _ t => t
  | .otherError t => t
  | _ => ""

/-- `e.__class__.__name__` for the three classes logged together. -/
def errClassName : CommandError → String
  | .checkFailure _ => "CheckFailure"
  | .commandOnCooldown _ => "CommandOnCooldown"
  | .disabledCommand _ => "DisabledCommand"
  | _ => ""

/-- `e.missing_perms` for the two permission error classes. -/
def missingPermsOf : CommandError → List String
  | .botMissingPermissions ps => ps
  | .missingPermissions ps => ps
  | _ => []

/-- `hasattr(command, "on_error")`; `hasattr(None, "on_error")` is false. -/
def hasOnErrorAttr : Option Command → Bool
  | some c => c.hasOnError
  | none => false

/-- `f"{command}"`: the command name, or `"None"` when no command resolved. -/
def commandStr : Option Command → String
  | some c => c.name
  | none => "None"

/-- Rendering of a `missing_perms` list inside an f-string. -/
def permsStr (ps : List String) : String := toString ps

/-- The positional arguments of `ctx.invoke(*help_command)` after the help
command object itself: `(parent.name, command.name)` when the command has a
parent, `(command.name,)` when it has none, and `()` when no command resolved. -/
def helpArgs : Option Command → List String
  | some c =>
    match c.parent with
    | some p => [p, c.name]
    | none => [c.name]
  | none => []

/-- A recursive command invocation performed by the handler. -/
inductive Invocation
  | help (args : List String)
  | tagsGet (tagName : String)
  deriving DecidableEq, Repr

/-- Possible outcomes of the recursive `ctx.invoke(tags_get_command, ...)`
call: normal return, a raised `ResponseCodeError`, or any other exception. -/
inductive InvokeResult
  | ok
  | raisesResponseCodeError (r : Response)
  | raisesOther (text : String)
  deriving DecidableEq, Repr

/-- An exception propagating out of the handler: `raise e.original`,
`raise e`, or a non-`ResponseCodeError` exception escaping the recursive
tag invocation. -/
inductive Raised
  | original (o : OriginalError)
  | err (e : CommandError)
  | fromInvoke (text : String)
  deriving DecidableEq, Repr

/-- The observable effects of one run of the handler: outbound chat messages
(in order), log lines, recursive command invocations, the exception leaving
the handler (if any), and whether `ctx.invoked_from_error_handler` was set. -/
structure Outcome where
  sends : List String
  logs : List (LogLevel × String)
  invocations : List Invocation
  raised : Option Raised
  ctxMarked : Bool
  deriving DecidableEq, Repr

/-- Message and log texts, verbatim from the source. -/
def localHandlerLog (cname : String) : String :=
  s!"Command {cname} has a local error handler, ignoring."

def badArgumentMsg (t : String) : String := s!"Bad argument: {t}\n"

def userInputMsg : String := "Something about your input seems off. Check the arguments:"

def noPrivateMsg : String := "Sorry, this command can\x27t be used in a private message!"

def botMissingPermsMsg : String :=
  "Sorry, it looks like I don\x27t have the permissions I need to do that."

def botMissingPermsLog (cname ps : String) : String :=
  s!"The bot is missing permissions to execute command {cname}: {ps}"

def missingPermsLog (author cname ps : String) : String :=
  s!"{author} is missing permissions to invoke command {cname}: {ps}"

def checkLog (cname author nm t : String) : String :=
  s!"Command {cname} invoked by {author} with error {nm}: {t}"

def notFoundMsg : String := "There does not seem to be anything matching your query."

def badRequestLog (b : String) : String :=
  s!"API gave bad request on command. Response: {b}."

def badRequestMsg : String := "According to the API, your request is malformed."

def internalIssueMsg : String := "Sorry, there seems to be an internal issue with the API."

def unexpectedStatusMsg (c : Nat) : String :=
  s!"Got an unexpected status code from the API (`{c}`)."

def unexpectedErrorMsg (t : String) : String :=
  s!"Sorry, an unexpected error occurred. Please let us know!\n\n```{t}```"

/-- The quiet outcome: no message, no log, no invocation, no exception. -/
def Outcome.quiet : Outcome :=
  { sends := [], logs := [], invocations := [], raised := none, ctxMarked := false }

/-- Shallow embedding of `ErrorHandler.on_command_error`.  The branch
structure and branch order mirror the python if/elif chain verbatim. -/
def onCommandError (verification : Nat) (tagsInvoke : InvokeResult)
    (ctx : Context) (e : CommandError) : Outcome :=
  let command := ctx.command
  let cname := commandStr command
  let author := ctx.author
  if hasOnErrorAttr command then
    { sends := [], logs := [(LogLevel.debug, localHandlerLog cname)],
      invocations := [], raised := none, ctxMarked := false }
  else if isCommandNotFound e && !ctx.invokedFromErrorHandler then
    if ctx.channelId ≠ verification then
      match tagsInvoke with
      | .ok =>
        { sends := [], logs := [], invocations := [Invocation.tagsGet ctx.invokedWith],
          raised := none, ctxMarked := true }
      | .raisesResponseCodeError _ =>
        { sends := [], logs := [], invocations := [Invocation.tagsGet ctx.invokedWith],
          raised := none, ctxMarked := true }
      | .raisesOther t =>
        { sends := [], logs := [], invocations := [Invocation.tagsGet ctx.invokedWith],
          raised := some (Raised.fromInvoke t), ctxMarked := true }
    else
      Outcome.quiet
  else if isBadArgument e then
    { sends := [badArgumentMsg (errText e)], logs := [],
      invocations := [Invocation.help (helpArgs command)], raised := none, ctxMarked := false }
  else if isUserInputError e then
    { sends := [userInputMsg], logs := [],
      invocations := [Invocation.help (helpArgs command)], raised := none, ctxMarked := false }
  else if isNoPrivateMessage e then
    { sends := [noPrivateMsg], logs := [], invocations := [], raised := none, ctxMarked := false }
  else if isBotMissingPermissions e then
    { sends := [botMissingPermsMsg],
      logs := [(LogLevel.warning, botMissingPermsLog cname (permsStr (missingPermsOf e)))],
      invocations := [], raised := none, ctxMarked := false }
  else if isMissingPermissions e then
    { sends := [],
      logs := [(LogLevel.debug, missingPermsLog author cname (permsStr (missingPermsOf e)))],
      invocations := [], raised := none, ctxMarked := false }
  else if isCheckFailure e || isCommandOnCooldown e || isDisabledCommand e then
    { sends := [],
      logs := [(LogLevel.debug, checkLog cname author (errClassName e) (errText e))],
      invocations := [], raised := none, ctxMarked := false }
  else if isCommandInvokeError e then
    match e with
    | CommandError.commandInvokeError (OriginalError.responseCodeError r) _ =>
      if r.status = 404 then
        { sends := [notFoundMsg], logs := [], invocations := [],
          raised := none, ctxMarked := false }
      else if r.status = 400 then
        { sends := [badRequestMsg],
          logs := [(LogLevel.debug, badRequestLog r.body)],
          invocations := [], raised := none, ctxMarked := false }
      else if 500 ≤ r.status ∧ r.status < 600 then
        { sends := [internalIssueMsg], logs := [], invocations := [],
          raised := none, ctxMarked := false }
      else
        { sends := [unexpectedStatusMsg r.code], logs := [], invocations := [],
          raised := none, ctxMarked := false }
    | CommandError.commandInvokeError o _ =>
      { sends := [unexpectedErrorMsg (errText e)], logs := [], invocations := [],
        raised := some (Raised.original o), ctxMarked := false }
    | _ =>
      { sends := [], logs := [], invocations := [],
        raised := some (Raised.err e), ctxMarked := false }
  else
    { sends := [], logs := [], invocations := [],
      raised := some (Raised.err e), ctxMarked := false }

/-- C1: for a `CommandNotFound` error on a context without the
`invoked_from_error_handler` mark whose channel is not the verification
channel, the handler sets the mark, invokes `tags get` with `ctx.invoked_with`
as the tag name, and suppresses any `ResponseCodeError` raised by that
recursive invocation (it returns normally, raising nothing). -/
theorem commandNotFound_redispatches_to_tags_get
    (verification : Nat) (tres : InvokeResult) (ctx : Context) (r : Response)
    (h1 : hasOnErrorAttr ctx.command = false)
    (h2 : ctx.invokedFromErrorHandler = false)
    (h3 : ctx.channelId ≠ verification)
    (h4 : tres = InvokeResult.ok ∨ tres = InvokeResult.raisesResponseCodeError r) :
    (onCommandError verification tres ctx CommandError.commandNotFound).ctxMarked = true ∧
    (onCommandError verification tres ctx CommandError.commandNotFound).invocations
      = [Invocation.tagsGet ctx.invokedWith] ∧
    (onCommandError verification tres ctx CommandError.commandNotFound).raised = none := by
  rcases h4 with h4 | h4 <;> subst h4 <;>
    simp [onCommandError, isCommandNotFound, h1, h2, h3]

/-- Witness for C1 at a concrete context, once with a normal tag lookup and
once with a suppressed `ResponseCodeError`. -/
theorem commandNotFound_redispatches_to_tags_get_spot :
    ((onCommandError 0 InvokeResult.ok
        { channelId := 1, invokedFromErrorHandler := false, invokedWith := "foo",
          author := "alice", command := none }
        CommandError.commandNotFound).ctxMarked = true ∧
     (onCommandError 0 InvokeResult.ok
        { channelId := 1, invokedFromErrorHandler := false, invokedWith := "foo",
          author := "alice", command := none }
        CommandError.commandNotFound).invocations = [Invocation.tagsGet "foo"] ∧
     (onCommandError 0 InvokeResult.ok
        { channelId := 1, invokedFromErrorHandler := false, invokedWith := "foo",
          author := "alice", command := none }
        CommandError.commandNotFound).raised = none) ∧
    ((onCommandError 0 (InvokeResult.raisesResponseCodeError ⟨404, 404, ""⟩)
        { channelId := 1, invokedFromErrorHandler := false, invokedWith := "foo",
          author := "alice", command := none }
        CommandError.commandNotFound).ctxMarked = true ∧
     (onCommandError 0 (InvokeResult.raisesResponseCodeError ⟨404, 404, ""⟩)
        { channelId := 1, invokedFromErrorHandler := false, invokedWith := "foo",
          author := "alice", command := none }
        CommandError.commandNotFound).invocations = [Invocation.tagsGet "foo"] ∧
     (onCommandError 0 (InvokeResult.raisesResponseCodeError ⟨404, 404, ""⟩)
        { channelId := 1, invokedFromErrorHandler := false, invokedWith := "foo",
          author := "alice", command := none }
        CommandError.commandNotFound).raised = none) :=
  ⟨commandNotFound_redispatches_to_tags_get 0 InvokeResult.ok
      { channelId := 1, invokedFromErrorHandler := false, invokedWith := "foo",
        author := "alice", command := none } ⟨404, 404, ""⟩
      (by decide) (by decide) (by decide) (Or.inl rfl),
   commandNotFound_redispatches_to_tags_get 0
      (InvokeResult.raisesResponseCodeError ⟨404, 404, ""⟩)
      { channelId := 1, invokedFromErrorHandler := false, invokedWith := "foo",
        author := "alice", command := none } ⟨404, 404, ""⟩
      (by decide) (by decide) (by decide) (Or.inr rfl)⟩

/-- C5: when the resolved command object has a local `on_error` attribute the
handler sends no chat message, raises nothing, performs no recursive
invocation, and leaves the context unmarked. -/
theorem localHandler_defers
    (verification : Nat) (tres : InvokeResult) (ctx : Context) (e : CommandError)
    (c : Command) (h1 : ctx.command = some c) (h2 : c.hasOnError = true) :
    (onCommandError verification tres ctx e).sends = [] ∧
    (onCommandError verification tres ctx e).raised = none ∧
    (onCommandError verification tres ctx e).invocations = [] ∧
    (onCommandError verification tres ctx e).ctxMarked = false := by
  simp [onCommandError, hasOnErrorAttr, h1, h2]

/-- Witness for C5 at a concrete context and error. -/
theorem localHandler_defers_spot :
    (onCommandError 0 InvokeResult.ok
        { channelId := 1, invokedFromErrorHandler := false, invokedWith := "foo",
          author := "alice",
          command := some { name := "tags", parent := none, hasOnError := true } }
        (CommandError.badArgument "x")).sends = [] ∧
    (onCommandError 0 InvokeResult.ok
        { channelId := 1, invokedFromErrorHandler := false, invokedWith := "foo",
          author := "alice",
          command := some { name := "tags", parent := none, hasOnError := true } }
        (CommandError.badArgument "x")).raised = none ∧
    (onCommandError 0 InvokeResult.ok
        { channelId := 1, invokedFromErrorHandler := false, invokedWith := "foo",
          author := "alice",
          command := some { name := "tags", parent := none, hasOnError := true } }
        (CommandError.badArgument "x")).invocations = [] ∧
    (onCommandError 0 InvokeResult.ok
        { channelId := 1, invokedFromErrorHandler := false, invokedWith := "foo",
          author := "alice",
          command := some { name := "tags", parent := none, hasOnError := true } }
        (CommandError.badArgument "x")).ctxMarked = false :=
  localHandler_defers 0 InvokeResult.ok
    { channelId := 1, invokedFromErrorHandler := false, invokedWith := "foo",
      author := "alice",
      command := some { name := "tags", parent := none, hasOnError := true } }
    (CommandError.badArgument "x")
    { name := "tags", parent := none, hasOnError := true } rfl rfl

/-- C9: for a `CommandNotFound` error on an unmarked context whose channel IS
the verification channel, the handler is completely silent: no message, no
log, no invocation, nothing raised, context unmarked. -/
theorem commandNotFound_verification_silent
    (verification : Nat) (tres : InvokeResult) (ctx : Context)
    (h1 : hasOnErrorAttr ctx.command = false)
    (h2 : ctx.invokedFromErrorHandler = false)
    (h3 : ctx.channelId = verification) :
    onCommandError verification tres ctx CommandError.commandNotFound = Outcome.quiet := by
  simp [onCommandError, isCommandNotFound, h1, h2, h3]

/-- Witness for C9 at a concrete context whose channel is the verification
channel. -/
theorem commandNotFound_verification_silent_spot :
    onCommandError 42 InvokeResult.ok
        { channelId := 42, invokedFromErrorHandler := false, invokedWith := "foo",
          author := "alice", command := none }
        CommandError.commandNotFound = Outcome.quiet :=
  commandNotFound_verification_silent 42 InvokeResult.ok
    { channelId := 42, invokedFromErrorHandler := false, invokedWith := "foo",
      author := "alice", command := none }
    (by decide) (by decide) (by decide)

/-- C6: for a `BadArgument` error (which also satisfies the `UserInputError`
instance check, but the bad-argument branch is tested first), the handler
sends the message embedding the error text and then invokes help with
`(parent.name, command.name)` when the failed command has a parent and with
`(command.name,)` otherwise. -/
theorem badArgument_sends_text_and_invokes_help
    (verification : Nat) (tres : InvokeResult) (ctx : Context) (t : String)
    (c : Command) (h1 : ctx.command = some c) (h2 : c.hasOnError = false) :
    isUserInputError (CommandError.badArgument t) = true ∧
    (onCommandError verification tres ctx (CommandError.badArgument t)).sends
      = [badArgumentMsg t] ∧
    (∀ p, c.parent = some p →
      (onCommandError verification tres ctx (CommandError.badArgument t)).invocations
        = [Invocation.help [p, c.name]]) ∧
    (c.parent = none →
      (onCommandError verification tres ctx (CommandError.badArgument t)).invocations
        = [Invocation.help [c.name]]) := by
  refine ⟨rfl, ?_, ?_, ?_⟩
  · simp [onCommandError, hasOnErrorAttr, isCommandNotFound, isBadArgument, errText, h1, h2]
  · intro p hp
    simp [onCommandError, hasOnErrorAttr, isCommandNotFound, isBadArgument, helpArgs,
      h1, h2, hp]
  · intro hp
    simp [onCommandError, hasOnErrorAttr, isCommandNotFound, isBadArgument, helpArgs,
      h1, h2, hp]

/-- Witness for C6 with a subcommand that has a parent. -/
theorem badArgument_sends_text_and_invokes_help_spot :
    isUserInputError (CommandError.badArgument "bad") = true ∧
    (onCommandError 0 InvokeResult.ok
        { channelId := 1, invokedFromErrorHandler := false, invokedWith := "foo",
          author := "alice",
          command := some { name := "get", parent := some "tags", hasOnError := false } }
        (CommandError.badArgument "bad")).sends = [badArgumentMsg "bad"] ∧
    (∀ p, (some "tags" : Option String) = some p →
      (onCommandError 0 InvokeResult.ok
          { channelId := 1, invokedFromErrorHandler := false, invokedWith := "foo",
            author := "alice",
            command := some { name := "get", parent := some "tags", hasOnError := false } }
          (CommandError.badArgument "bad")).invocations = [Invocation.help [p, "get"]]) ∧
    ((some "tags" : Option String) = none →
      (onCommandError 0 InvokeResult.ok
          { channelId := 1, invokedFromErrorHandler := false, invokedWith := "foo",
            author := "alice",
            command := some { name := "get", parent := some "tags", hasOnError := false } }
          (CommandError.badArgument "bad")).invocations = [Invocation.help ["get"]]) :=
  badArgument_sends_text_and_invokes_help 0 InvokeResult.ok
    { channelId := 1, invokedFromErrorHandler := false, invokedWith := "foo",
      author := "alice",
      command := some { name := "get", parent := some "tags", hasOnError := false } }
    "bad" { name := "get", parent := some "tags", hasOnError := false } rfl rfl

/-- C7: for `MissingPermissions`, `CheckFailure`, `CommandOnCooldown` and
`DisabledCommand` errors the handler emits exactly one debug-level log line
and is otherwise silent: no chat message, nothing raised. -/
theorem permission_check_errors_log_debug_only
    (verification : Nat) (tres : InvokeResult) (ctx : Context) (e : CommandError)
    (h1 : hasOnErrorAttr ctx.command = false)
    (h2 : (∃ ps, e = CommandError.missingPermissions ps) ∨
          (∃ t, e = CommandError.checkFailure t) ∨
          (∃ t, e = CommandError.commandOnCooldown t) ∨
          (∃ t, e = CommandError.disabledCommand t)) :
    (∃ m, (onCommandError verification tres ctx e).logs = [(LogLevel.debug, m)]) ∧
    (onCommandError verification tres ctx e).sends = [] ∧
    (onCommandError verification tres ctx e).raised = none := by
  rcases h2 with ⟨ps, rfl⟩ | ⟨t, rfl⟩ | ⟨t, rfl⟩ | ⟨t, rfl⟩ <;>
    simp [onCommandError, isCommandNotFound, isBadArgument, isUserInputError,
      isNoPrivateMessage, isBotMissingPermissions, isMissingPermissions,
      isCheckFailure, isCommandOnCooldown, isDisabledCommand, h1]

/-- Witness for C7 at a concrete `CommandOnCooldown` error. -/
theorem permission_check_errors_log_debug_only_spot :
    (∃ m, (onCommandError 0 InvokeResult.ok
        { channelId := 1, invokedFromErrorHandler := false, invokedWith := "foo",
          author := "alice", command := none }
        (CommandError.commandOnCooldown "slow down")).logs = [(LogLevel.debug, m)]) ∧
    (onCommandError 0 InvokeResult.ok
        { channelId := 1, invokedFromErrorHandler := false, invokedWith := "foo",
          author := "alice", command := none }
        (CommandError.commandOnCooldown "slow down")).sends = [] ∧
    (onCommandError 0 InvokeResult.ok
        { channelId := 1, invokedFromErrorHandler := false, invokedWith := "foo",
          author := "alice", command := none }
        (CommandError.commandOnCooldown "slow down")).raised = none :=
  permission_check_errors_log_debug_only 0 InvokeResult.ok
    { channelId := 1, invokedFromErrorHandler := false, invokedWith := "foo",
      author := "alice", command := none }
    (CommandError.commandOnCooldown "slow down") (by decide)
    (Or.inr (Or.inr (Or.inl ⟨"slow down", rfl⟩)))

/-- C8: for a `BotMissingPermissions` error the handler sends exactly the
fixed apology message, emits exactly one warning-level log line carrying the
missing-permission list, and raises nothing. -/
theorem botMissingPermissions_apology_and_warning
    (verification : Nat) (tres : InvokeResult) (ctx : Context) (ps : List String)
    (h1 : hasOnErrorAttr ctx.command = false) :
    (onCommandError verification tres ctx (CommandError.botMissingPermissions ps)).sends
      = [botMissingPermsMsg] ∧
    (onCommandError verification tres ctx (CommandError.botMissingPermissions ps)).logs
      = [(LogLevel.warning, botMissingPermsLog (commandStr ctx.command) (permsStr ps))] ∧
    (onCommandError verification tres ctx (CommandError.botMissingPermissions ps)).raised
      = none := by
  simp [onCommandError, isCommandNotFound, isBadArgument, isUserInputError,
    isNoPrivateMessage, isBotMissingPermissions, missingPermsOf, h1]

/-- Witness for C8 at a concrete permission list. -/
theorem botMissingPermissions_apology_and_warning_spot :
    (onCommandError 0 InvokeResult.ok
        { channelId := 1, invokedFromErrorHandler := false, invokedWith := "foo",
          author := "alice", command := none }
        (CommandError.botMissingPermissions ["manage_messages"])).sends
      = [botMissingPermsMsg] ∧
    (onCommandError 0 InvokeResult.ok
        { channelId := 1, invokedFromErrorHandler := false, invokedWith := "foo",
          author := "alice", command := none }
        (CommandError.botMissingPermissions ["manage_messages"])).logs
      = [(LogLevel.warning, botMissingPermsLog "None" (permsStr ["manage_messages"]))] ∧
    (onCommandError 0 InvokeResult.ok
        { channelId := 1, invokedFromErrorHandler := false, invokedWith := "foo",
          author := "alice", command := none }
        (CommandError.botMissingPermissions ["manage_messages"])).raised = none :=
  botMissingPermissions_apology_and_warning 0 InvokeResult.ok
    { channelId := 1, invokedFromErrorHandler := false, invokedWith := "foo",
      author := "alice", command := none }
    ["manage_messages"] (by decide)

/-- C2: for a `CommandInvokeError` wrapping a `ResponseCodeError`, the handler
branches on the wrapped response status: 404 sends the nothing-matching
message; 400 logs the decoded response body at debug level and sends the
malformed-request message; a status in `[500, 600)` sends the internal-issue
message; any other status sends the message embedding a status code — and in
every branch nothing is raised. -/
theorem invokeError_responseCode_status_branches
    (verification : Nat) (tres : InvokeResult) (ctx : Context) (r : Response) (t : String)
    (h1 : hasOnErrorAttr ctx.command = false) :
    (r.status = 404 →
      (onCommandError verification tres ctx
        (CommandError.commandInvokeError (OriginalError.responseCodeError r) t)).sends
        = [notFoundMsg] ∧
      (onCommandError verification tres ctx
        (CommandError.commandInvokeError (OriginalError.responseCodeError r) t)).raised
        = none) ∧
    (r.status = 400 →
      (onCommandError verification tres ctx
        (CommandError.commandInvokeError (OriginalError.responseCodeError r) t)).sends
        = [badRequestMsg] ∧
      (onCommandError verification tres ctx
        (CommandError.commandInvokeError (OriginalError.responseCodeError r) t)).logs
        = [(LogLevel.debug, badRequestLog r.body)] ∧
      (onCommandError verification tres ctx
        (CommandError.commandInvokeError (OriginalError.responseCodeError r) t)).raised
        = none) ∧
    (500 ≤ r.status ∧ r.status < 600 →
      (onCommandError verification tres ctx
        (CommandError.commandInvokeError (OriginalError.responseCodeError r) t)).sends
        = [internalIssueMsg] ∧
      (onCommandError verification tres ctx
        (CommandError.commandInvokeError (OriginalError.responseCodeError r) t)).raised
        = none) ∧
    (r.status ≠ 404 → r.status ≠ 400 → ¬(500 ≤ r.status ∧ r.status < 600) →
      (onCommandError verification tres ctx
        (CommandError.commandInvokeError (OriginalError.responseCodeError r) t)).sends
        = [unexpectedStatusMsg r.code] ∧
      (onCommandError verification tres ctx
        (CommandError.commandInvokeError (OriginalError.responseCodeError r) t)).raised
        = none) := by
  refine ⟨?_, ?_, ?_, ?_⟩
  · intro h
    simp [onCommandError, isCommandNotFound, isBadArgument, isUserInputError,
      isNoPrivateMessage, isBotMissingPermissions, isMissingPermissions, isCheckFailure,
      isCommandOnCooldown, isDisabledCommand, isCommandInvokeError, h1, h]
  · intro h
    have h404 : r.status ≠ 404 := by omega
    simp [onCommandError, isCommandNotFound, isBadArgument, isUserInputError,
      isNoPrivateMessage, isBotMissingPermissions, isMissingPermissions, isCheckFailure,
      isCommandOnCooldown, isDisabledCommand, isCommandInvokeError, h1, h404, h]
  · intro h
    have h404 : r.status ≠ 404 := by omega
    have h400 : r.status ≠ 400 := by omega
    simp [onCommandError, isCommandNotFound, isBadArgument, isUserInputError,
      isNoPrivateMessage, isBotMissingPermissions, isMissingPermissions, isCheckFailure,
      isCommandOnCooldown, isDisabledCommand, isCommandInvokeError, h1, h404, h400, h]
  · intro h404 h400 h5
    simp [onCommandError, isCommandNotFound, isBadArgument, isUserInputError,
      isNoPrivateMessage, isBotMissingPermissions, isMissingPermissions, isCheckFailure,
      isCommandOnCooldown, isDisabledCommand, isCommandInvokeError, h1, h404, h400, h5]

/-- Witness for C2 at a concrete 404 response. -/
theorem invokeError_responseCode_status_branches_spot :
    ((404 : Nat) = 404 →
      (onCommandError 0 InvokeResult.ok
        { channelId := 1, invokedFromErrorHandler := false, invokedWith := "foo",
          author := "alice", command := none }
        (CommandError.commandInvokeError
          (OriginalError.responseCodeError ⟨404, 404, "body"⟩) "boom")).sends
        = [notFoundMsg] ∧
      (onCommandError 0 InvokeResult.ok
        { channelId := 1, invokedFromErrorHandler := false, invokedWith := "foo",
          author := "alice", command := none }
        (CommandError.commandInvokeError
          (OriginalError.responseCodeError ⟨404, 404, "body"⟩) "boom")).raised
        = none) ∧
    ((404 : Nat) = 400 →
      (onCommandError 0 InvokeResult.ok
        { channelId := 1, invokedFromErrorHandler := false, invokedWith := "foo",
          author := "alice", command := none }
        (CommandError.commandInvokeError
          (OriginalError.responseCodeError ⟨404, 404, "body"⟩) "boom")).sends
        = [badRequestMsg] ∧
      (onCommandError 0 InvokeResult.ok
        { channelId := 1, invokedFromErrorHandler := false, invokedWith := "foo",
          author := "alice", command := none }
        (CommandError.commandInvokeError
          (OriginalError.responseCodeError ⟨404, 404, "body"⟩) "boom")).logs
        = [(LogLevel.debug, badRequestLog "body")] ∧
      (onCommandError 0 InvokeResult.ok
        { channelId := 1, invokedFromErrorHandler := false, invokedWith := "foo",
          author := "alice", command := none }
        (CommandError.commandInvokeError
          (OriginalError.responseCodeError ⟨404, 404, "body"⟩) "boom")).raised
        = none) ∧
    ((500 : Nat) ≤ 404 ∧ (404 : Nat) < 600 →
      (onCommandError 0 InvokeResult.ok
        { channelId := 1, invokedFromErrorHandler := false, invokedWith := "foo",
          author := "alice", command := none }
        (CommandError.commandInvokeError
          (OriginalError.responseCodeError ⟨404, 404, "body"⟩) "boom")).sends
        = [internalIssueMsg] ∧
      (onCommandError 0 InvokeResult.ok
        { channelId := 1, invokedFromErrorHandler := false, invokedWith := "foo",
          author := "alice", command := none }
        (CommandError.commandInvokeError
          (OriginalError.responseCodeError ⟨404, 404, "body"⟩) "boom")).raised
        = none) ∧
    ((404 : Nat) ≠ 404 → (404 : Nat) ≠ 400 → ¬((500 : Nat) ≤ 404 ∧ (404 : Nat) < 600) →
      (onCommandError 0 InvokeResult.ok
        { channelId := 1, invokedFromErrorHandler := false, invokedWith := "foo",
          author := "alice", command := none }
        (CommandError.commandInvokeError
          (OriginalError.responseCodeError ⟨404, 404, "body"⟩) "boom")).sends
        = [unexpectedStatusMsg 404] ∧
      (onCommandError 0 InvokeResult.ok
        { channelId := 1, invokedFromErrorHandler := false, invokedWith := "foo",
          author := "alice", command := none }
        (CommandError.commandInvokeError
          (OriginalError.responseCodeError ⟨404, 404, "body"⟩) "boom")).raised
        = none) :=
  invokeError_responseCode_status_branches 0 InvokeResult.ok
    { channelId := 1, invokedFromErrorHandler := false, invokedWith := "foo",
      author := "alice", command := none }
    ⟨404, 404, "body"⟩ "boom" (by decide)

/-- C3: for a `CommandInvokeError` wrapping a non-`ResponseCodeError`, the
handler sends exactly one generic unexpected-error message embedding the error
text and re-raises the wrapped original error (not the wrapper); and an error
matched by no branch of the dispatch table is re-raised unchanged with no
other effect. -/
theorem invokeError_other_reraises_original
    (verification : Nat) (tres : InvokeResult) (ctx : Context) (t u v : String)
    (h1 : hasOnErrorAttr ctx.command = false) :
    ((onCommandError verification tres ctx
        (CommandError.commandInvokeError (OriginalError.otherOriginal u) t)).sends
        = [unexpectedErrorMsg t] ∧
     (onCommandError verification tres ctx
        (CommandError.commandInvokeError (OriginalError.otherOriginal u) t)).raised
        = some (Raised.original (OriginalError.otherOriginal u))) ∧
    ((onCommandError verification tres ctx (CommandError.otherError v)).sends = [] ∧
     (onCommandError verification tres ctx (CommandError.otherError v)).logs = [] ∧
     (onCommandError verification tres ctx (CommandError.otherError v)).invocations = [] ∧
     (onCommandError verification tres ctx (CommandError.otherError v)).raised
        = some (Raised.err (CommandError.otherError v))) := by
  constructor
  · simp [onCommandError, isCommandNotFound, isBadArgument, isUserInputError,
      isNoPrivateMessage, isBotMissingPermissions, isMissingPermissions, isCheckFailure,
      isCommandOnCooldown, isDisabledCommand, isCommandInvokeError, errText, h1]
  · simp [onCommandError, isCommandNotFound, isBadArgument, isUserInputError,
      isNoPrivateMessage, isBotMissingPermissions, isMissingPermissions, isCheckFailure,
      isCommandOnCooldown, isDisabledCommand, isCommandInvokeError, h1]

/-- Witness for C3 at concrete error texts. -/
theorem invokeError_other_reraises_original_spot :
    ((onCommandError 0 InvokeResult.ok
        { channelId := 1, invokedFromErrorHandler := false, invokedWith := "foo",
          author := "alice", command := none }
        (CommandError.commandInvokeError (OriginalError.otherOriginal "kaboom") "wrapped")).sends
        = [unexpectedErrorMsg "wrapped"] ∧
     (onCommandError 0 InvokeResult.ok
        { channelId := 1, invokedFromErrorHandler := false, invokedWith := "foo",
          author := "alice", command := none }
        (CommandError.commandInvokeError (OriginalError.otherOriginal "kaboom") "wrapped")).raised
        = some (Raised.original (OriginalError.otherOriginal "kaboom"))) ∧
    ((onCommandError 0 InvokeResult.ok
        { channelId := 1, invokedFromErrorHandler := false, invokedWith := "foo",
          author := "alice", command := none }
        (CommandError.otherError "weird")).sends = [] ∧
     (onCommandError 0 InvokeResult.ok
        { channelId := 1, invokedFromErrorHandler := false, invokedWith := "foo",
          author := "alice", command := none }
        (CommandError.otherError "weird")).logs = [] ∧
     (onCommandError 0 InvokeResult.ok
        { channelId := 1, invokedFromErrorHandler := false, invokedWith := "foo",
          author := "alice", command := none }
        (CommandError.otherError "weird")).invocations = [] ∧
     (onCommandError 0 InvokeResult.ok
        { channelId := 1, invokedFromErrorHandler := false, invokedWith := "foo",
          author := "alice", command := none }
        (CommandError.otherError "weird")).raised
        = some (Raised.err (CommandError.otherError "weird"))) :=
  invokeError_other_reraises_original 0 InvokeResult.ok
    { channelId := 1, invokedFromErrorHandler := false, invokedWith := "foo",
      author := "alice", command := none }
    "wrapped" "kaboom" "weird" (by decide)

/-- C10: in the fall-through status branch (status not 404, not 400, not in
`[500, 600)`), the message interpolates the response object's `code`
attribute, which is distinct from the `status` attribute every branch
condition tests, so the code shown need not equal the selecting status. -/
theorem unexpectedStatus_message_uses_code_attribute
    (verification : Nat) (tres : InvokeResult) (ctx : Context) (r : Response) (t : String)
    (h1 : hasOnErrorAttr ctx.command = false)
    (h2 : r.status ≠ 404) (h3 : r.status ≠ 400)
    (h4 : ¬(500 ≤ r.status ∧ r.status < 600)) :
    (onCommandError verification tres ctx
      (CommandError.commandInvokeError (OriginalError.responseCodeError r) t)).sends
      = [unexpectedStatusMsg r.code] := by
  simp [onCommandError, isCommandNotFound, isBadArgument, isUserInputError,
    isNoPrivateMessage, isBotMissingPermissions, isMissingPermissions, isCheckFailure,
    isCommandOnCooldown, isDisabledCommand, isCommandInvokeError, h1, h2, h3, h4]

/-- Witness for C10: a response whose status is 200 but whose `code` attribute
is 999 makes the user-visible message show 999, not the status 200. -/
theorem unexpectedStatus_message_uses_code_attribute_spot :
    (onCommandError 0 InvokeResult.ok
      { channelId := 1, invokedFromErrorHandler := false, invokedWith := "foo",
        author := "alice", command := none }
      (CommandError.commandInvokeError
        (OriginalError.responseCodeError ⟨200, 999, "body"⟩) "boom")).sends
      = [unexpectedStatusMsg 999] ∧ (999 : Nat) ≠ 200 :=
  ⟨unexpectedStatus_message_uses_code_attribute 0 InvokeResult.ok
    { channelId := 1, invokedFromErrorHandler := false, invokedWith := "foo",
      author := "alice", command := none }
    ⟨200, 999, "body"⟩ "boom" (by decide) (by decide) (by decide) (by decide),
   by decide⟩

set_option maxHeartbeats 2000000 in
/-- C4: one run of the handler performs at most one outbound chat send, at
most one log line, at most one recursive command invocation, and at most one
raised exception (the latter by construction of `Outcome.raised : Option`). -/
theorem handler_side_effects_at_most_one
    (verification : Nat) (tres : InvokeResult) (ctx : Context) (e : CommandError) :
    (onCommandError verification tres ctx e).sends.length ≤ 1 ∧
    (onCommandError verification tres ctx e).logs.length ≤ 1 ∧
    (onCommandError verification tres ctx e).invocations.length ≤ 1 ∧
    (onCommandError verification tres ctx e).raised.toList.length ≤ 1 := by
  rcases e with _ | t | t | _ | ps | ps | t | t | t | ⟨(r | u), t⟩ | t <;>
    cases tres <;>
      simp only [onCommandError, isCommandNotFound, isBadArgument, isUserInputError,
        isNoPrivateMessage, isBotMissingPermissions, isMissingPermissions, isCheckFailure,
        isCommandOnCooldown, isDisabledCommand, isCommandInvokeError] <;>
      split_ifs <;>
        simp [Outcome.quiet]

end ErrorHandler
